import Mathlib

/-!
Verification of the HC-SR04 ultrasonic sensor character-device driver
(`src/hcsr04_driver.c`) against its natural-language specification.

The driver's two core pieces are shallowly embedded here:

* `echo_isr` — the edge-interrupt handler that timestamps the rising and
  falling transitions of the echo line and publishes the pulse duration;
* `get_distance` — the `read` file operation that pulses the trigger line,
  waits for the echo measurement, converts the duration to centimetres,
  validates the range, formats the result and copies it to the caller.

Machine integers (`s64`, `ktime_t`, `loff_t`) are modelled as `Int`; all
values arising in the driver are far from the 64-bit boundaries, so no
wrap-around modelling is required.  Environment interactions (whether the
interrupt fired before the 50 ms wait expired, the measured duration, and
whether `copy_to_user` succeeded) are passed as explicit parameters.
-/

namespace HCSR04

/-- The 50 ms wait bound (`#define TIMEOUT 50`, milliseconds). -/
def TIMEOUT : Nat := 50

/-- Model of the kernel helper `div64_s64`: C signed 64-bit division,
which truncates toward zero — `Int.tdiv` in Lean.  The driver only divides
by the positive constant 58000, so no overflow case arises. -/
def div64_s64 (a b : Int) : Int := Int.tdiv a b

/-- The shared pulse-timing state: the globals `start_time`, `end_time`,
`duration_ns` (all `ktime_t`, nanoseconds) and `pulse_ready`. -/
structure PulseState where
  start_time : Int
  end_time : Int
  duration_ns : Int
  pulse_ready : Bool
deriving DecidableEq, Repr

/-- `echo_isr` (lines 87–110): on a high echo level it records the current
monotonic time into `start_time`; on a low level it records `end_time`,
computes `duration_ns = end_time - start_time`, sets `pulse_ready` and
wakes the wait queue.  The returned `Bool` records whether
`wake_up_interruptible` was called. -/
def echo_isr (s : PulseState) (value : Bool) (now : Int) : PulseState × Bool :=
  if value then
    ({ s with start_time := now }, false)
  else
    let end_t := now
    let dur := end_t - s.start_time
    ({ s with end_time := end_t, duration_ns := dur, pulse_ready := true }, true)

/-- The observable side-effecting steps of one `get_distance` call, in
program order: driving the trigger line, the 10 µs busy wait, clearing
`pulse_ready`, and blocking on the wait queue. -/
inductive Action where
  | triggerHigh
  | delayUs (n : Nat)
  | triggerLow
  | resetReady
  | waitEvent
deriving DecidableEq, Repr

/-- Result of one `read` call, mirroring the return values of
`get_distance`: `0` at end-of-stream, `-ETIMEDOUT`, `-ERANGE` (with the
logged out-of-range value), `-EFAULT`, or a positive byte count together
with the bytes copied to the user buffer. -/
inductive ReadResult where
  | eof
  | etimedout
  | erange (value : Int)
  | efault
  | ok (data : List Char) (count : Nat)
deriving DecidableEq, Repr

/-- Everything observable about one `get_distance` call: its return value,
the file offset `*off` afterwards, the value of `pulse_ready` afterwards,
the value written to the global `distance_cm` (if line 61 was reached), and
the trace of hardware/wait actions performed. -/
structure ReadOutcome where
  result : ReadResult
  off' : Int
  pulse_ready' : Bool
  distanceCm : Option Int
  trace : List Action
deriving Repr

/-- `snprintf(buffer, 64, "%lldcm\n", distance_cm)` (line 68): the decimal
rendering of the value followed by `cm` and a newline.  For every value the
range check lets through this is at most 6 bytes, far below the 64-byte
buffer, so `snprintf` never truncates and its return value is the length
of this string. -/
def format_distance (d : Int) : String := toString d ++ "cm\n"

/-- The fixed action sequence of one measurement attempt, in the statement
order of lines 46–56: trigger high, `udelay(10)`, trigger low, clear
`pulse_ready`, block on the wait queue. -/
def measureTrace : List Action :=
  [.triggerHigh, .delayUs 10, .triggerLow, .resetReady, .waitEvent]

/-- `get_distance` (lines 37–80), the `read` file operation.

Parameters standing for the call's environment:
* `ready0` — `pulse_ready` on entry (only relevant on the early-return path,
  which does not touch it);
* `off` — the file offset `*off`;
* `len` — the caller-supplied maximum byte count;
* `waitReady` — the value of `pulse_ready` when
  `wait_event_interruptible_timeout` returns, i.e. whether the falling-edge
  interrupt fired before the 50 ms timeout;
* `dur` — the global `duration_ns` published by the interrupt handler;
* `copyOk` — whether `copy_to_user` copied everything (`not_copied == 0`).

If `*off > 0` the call resets the offset and returns `0` without touching
the hardware.  Otherwise it pulses the trigger (high, 10 µs, low), clears
`pulse_ready`, waits, and on readiness divides `duration_ns` by 58000,
range-checks the result, formats it, and copies
`min(len, buffer_len + 1)` bytes (the `+ 1` covering the NUL terminator)
to the caller, advancing the offset by that count. -/
def get_distance (ready0 : Bool) (off : Int) (len : Nat)
    (waitReady : Bool) (dur : Int) (copyOk : Bool) : ReadOutcome :=
  if off > 0 then
    { result := .eof, off' := 0, pulse_ready' := ready0,
      distanceCm := none, trace := [] }
  else
    let tr : List Action := measureTrace
    if !waitReady then
      { result := .etimedout, off' := off, pulse_ready' := waitReady,
        distanceCm := none, trace := tr }
    else
      let distance_cm := div64_s64 dur 58000
      if distance_cm < 0 ∨ distance_cm > 400 then
        { result := .erange distance_cm, off' := off, pulse_ready' := waitReady,
          distanceCm := some distance_cm, trace := tr }
      else
        let buffer := format_distance distance_cm
        let buffer_len := buffer.length
        let to_copy := min len (buffer_len + 1)
        if !copyOk then
          { result := .efault, off' := off, pulse_ready' := waitReady,
            distanceCm := some distance_cm, trace := tr }
        else
          { result := .ok ((buffer.data ++ [Char.ofNat 0]).take to_copy) to_copy,
            off' := off + to_copy, pulse_ready' := waitReady,
            distanceCm := some distance_cm, trace := tr }

/-! ### Case-analysis helper lemmas for `get_distance` -/

/-- Early return at a positive offset (lines 41–44). -/
theorem get_distance_eof_eq (ready0 : Bool) (off : Int) (len : Nat)
    (waitReady : Bool) (dur : Int) (copyOk : Bool) (hoff : off > 0) :
    get_distance ready0 off len waitReady dur copyOk =
      { result := .eof, off' := 0, pulse_ready' := ready0,
        distanceCm := none, trace := [] } := by
  unfold get_distance
  rw [if_pos hoff]

/-- Timeout path (lines 55–59). -/
theorem get_distance_timeout_eq (ready0 : Bool) (off : Int) (len : Nat)
    (dur : Int) (copyOk : Bool) (hoff : ¬ off > 0) :
    get_distance ready0 off len false dur copyOk =
      { result := .etimedout, off' := off, pulse_ready' := false,
        distanceCm := none, trace := measureTrace } := by
  unfold get_distance
  rw [if_neg hoff]
  rfl

/-- Out-of-range path (lines 61–66). -/
theorem get_distance_erange_eq (ready0 : Bool) (off : Int) (len : Nat)
    (dur : Int) (copyOk : Bool) (hoff : ¬ off > 0)
    (hr : div64_s64 dur 58000 < 0 ∨ div64_s64 dur 58000 > 400) :
    get_distance ready0 off len true dur copyOk =
      { result := .erange (div64_s64 dur 58000), off' := off, pulse_ready' := true,
        distanceCm := some (div64_s64 dur 58000), trace := measureTrace } := by
  unfold get_distance
  rw [if_neg hoff]
  simp only [Bool.not_true, Bool.false_eq_true, if_false]
  rw [if_pos hr]

/-- Copy-fault path (lines 72–75). -/
theorem get_distance_efault_eq (ready0 : Bool) (off : Int) (len : Nat)
    (dur : Int) (hoff : ¬ off > 0)
    (hr : ¬ (div64_s64 dur 58000 < 0 ∨ div64_s64 dur 58000 > 400)) :
    get_distance ready0 off len true dur false =
      { result := .efault, off' := off, pulse_ready' := true,
        distanceCm := some (div64_s64 dur 58000), trace := measureTrace } := by
  unfold get_distance
  rw [if_neg hoff]
  simp only [Bool.not_true, Bool.false_eq_true, if_false]
  rw [if_neg hr]
  rfl

/-- Success path (lines 68–79). -/
theorem get_distance_ok_eq (ready0 : Bool) (off : Int) (len : Nat)
    (dur : Int) (hoff : ¬ off > 0)
    (hr : ¬ (div64_s64 dur 58000 < 0 ∨ div64_s64 dur 58000 > 400)) :
    get_distance ready0 off len true dur true =
      { result := .ok (((format_distance (div64_s64 dur 58000)).data ++ [Char.ofNat 0]).take
            (min len ((format_distance (div64_s64 dur 58000)).length + 1)))
          (min len ((format_distance (div64_s64 dur 58000)).length + 1)),
        off' := off + (min len ((format_distance (div64_s64 dur 58000)).length + 1)),
        pulse_ready' := true,
        distanceCm := some (div64_s64 dur 58000), trace := measureTrace } := by
  unfold get_distance
  rw [if_neg hoff]
  simp only [Bool.not_true, Bool.false_eq_true, if_false]
  rw [if_neg hr]

/-- Whenever the offset check falls through (offset not positive), the
measurement action sequence of lines 46–56 is performed, whatever the
outcome. -/
theorem get_distance_trace_of_nonpos (ready0 : Bool) (off : Int) (len : Nat)
    (waitReady : Bool) (dur : Int) (copyOk : Bool) (hoff : ¬ off > 0) :
    (get_distance ready0 off len waitReady dur copyOk).trace = measureTrace := by
  cases waitReady
  · rw [get_distance_timeout_eq ready0 off len dur copyOk hoff]
  · by_cases hr : div64_s64 dur 58000 < 0 ∨ div64_s64 dur 58000 > 400
    · rw [get_distance_erange_eq ready0 off len dur copyOk hoff hr]
    · cases copyOk
      · rw [get_distance_efault_eq ready0 off len dur hoff hr]
      · rw [get_distance_ok_eq ready0 off len dur hoff hr]

/-- A read at a non-positive offset never reports end-of-stream. -/
theorem get_distance_ne_eof (ready0 : Bool) (off : Int) (len : Nat)
    (waitReady : Bool) (dur : Int) (copyOk : Bool) (hoff : ¬ off > 0) :
    (get_distance ready0 off len waitReady dur copyOk).result ≠ .eof := by
  cases waitReady
  · rw [get_distance_timeout_eq ready0 off len dur copyOk hoff]
    exact fun h => ReadResult.noConfusion h
  · by_cases hr : div64_s64 dur 58000 < 0 ∨ div64_s64 dur 58000 > 400
    · rw [get_distance_erange_eq ready0 off len dur copyOk hoff hr]
      exact fun h => ReadResult.noConfusion h
    · cases copyOk
      · rw [get_distance_efault_eq ready0 off len dur hoff hr]
        exact fun h => ReadResult.noConfusion h
      · rw [get_distance_ok_eq ready0 off len dur hoff hr]
        exact fun h => ReadResult.noConfusion h

/-! ### Claim theorems -/

/-- C1: for every duration `d` read from the pulse-timing state after a
successful wait, the computed distance written to the `distance_cm` global
is exactly the truncating signed division `d / 58000` (`get_distance` is a
function of its inputs, hence deterministic); in particular a duration of
11,600,000 ns yields a distance of 200 cm. -/
theorem c1_distance_is_truncating_div (d : Int) :
    (∀ ready0 off len copyOk, off ≤ 0 →
      (get_distance ready0 off len true d copyOk).distanceCm
        = some (Int.tdiv d 58000)) ∧
    (get_distance false 0 64 true 11600000 true).distanceCm = some 200 := by
  constructor
  · intro ready0 off len copyOk hoff
    have hoff' : ¬ off > 0 := not_lt.mpr hoff
    by_cases hr : div64_s64 d 58000 < 0 ∨ div64_s64 d 58000 > 400
    · rw [get_distance_erange_eq ready0 off len d copyOk hoff' hr]; rfl
    · cases copyOk
      · rw [get_distance_efault_eq ready0 off len d hoff' hr]; rfl
      · rw [get_distance_ok_eq ready0 off len d hoff' hr]; rfl
  · decide

/-- Witness for C1 at duration 11,600,000 ns and offset 0. -/
theorem c1_distance_is_truncating_div_witness :
    (get_distance false 0 64 true 11600000 true).distanceCm
      = some (Int.tdiv 11600000 58000) :=
  (c1_distance_is_truncating_div 11600000).1 false 0 64 true (le_refl 0)

/-- C2: when the converted distance `d / 58000` is negative or exceeds 400
the read fails with `-ERANGE` (logging the value) and never returns a
successful byte count; when the converted distance lies in `[0, 400]` the
range check passes, i.e. the result is never `-ERANGE`. -/
theorem c2_range_validation (d : Int) (ready0 : Bool) (off : Int) (len : Nat)
    (copyOk : Bool) (hoff : off ≤ 0) :
    ((div64_s64 d 58000 < 0 ∨ div64_s64 d 58000 > 400) →
      (get_distance ready0 off len true d copyOk).result
          = .erange (div64_s64 d 58000) ∧
      ∀ data cnt,
        (get_distance ready0 off len true d copyOk).result ≠ .ok data cnt) ∧
    ((0 ≤ div64_s64 d 58000 ∧ div64_s64 d 58000 ≤ 400) →
      ∀ v, (get_distance ready0 off len true d copyOk).result ≠ .erange v) := by
  have hoff' : ¬ off > 0 := not_lt.mpr hoff
  constructor
  · intro hr
    rw [get_distance_erange_eq ready0 off len d copyOk hoff' hr]
    exact ⟨rfl, fun data cnt h => ReadResult.noConfusion h⟩
  · intro hr v
    have hr' : ¬ (div64_s64 d 58000 < 0 ∨ div64_s64 d 58000 > 400) := by
      rintro (h3 | h3)
      · exact absurd hr.1 (not_le.mpr h3)
      · exact absurd h3 (not_lt.mpr hr.2)
    cases copyOk
    · rw [get_distance_efault_eq ready0 off len d hoff' hr']
      exact fun h => ReadResult.noConfusion h
    · rw [get_distance_ok_eq ready0 off len d hoff' hr']
      exact fun h => ReadResult.noConfusion h

/-- Witness for C2: the garbled duration 30,000,000,000 ns (distance
517,241) is rejected with `-ERANGE`, and the in-range duration
11,600,000 ns is not. -/
theorem c2_range_validation_witness :
    (get_distance false 0 64 true 30000000000 true).result
        = .erange (div64_s64 30000000000 58000) ∧
    (get_distance false 0 64 true 11600000 true).result ≠ .erange 200 :=
  ⟨((c2_range_validation 30000000000 false 0 64 true (le_refl 0)).1
      (by decide)).1,
   (c2_range_validation 11600000 false 0 64 true (le_refl 0)).2 (by decide) 200⟩

/-- C3: if `pulse_ready` is still false when the 50 ms wait elapses, the
read returns `-ETIMEDOUT`, never performs the duration-to-distance
conversion (the `distance_cm` global is not written), and leaves
`pulse_ready` false for the next cycle. -/
theorem c3_timeout (ready0 : Bool) (off : Int) (len : Nat) (dur : Int)
    (copyOk : Bool) (hoff : off ≤ 0) :
    (get_distance ready0 off len false dur copyOk).result = .etimedout ∧
    (get_distance ready0 off len false dur copyOk).distanceCm = none ∧
    (get_distance ready0 off len false dur copyOk).pulse_ready' = false := by
  rw [get_distance_timeout_eq ready0 off len dur copyOk (not_lt.mpr hoff)]
  exact ⟨rfl, rfl, rfl⟩

/-- Witness for C3 at offset 0. -/
theorem c3_timeout_witness :
    (get_distance false 0 64 false 0 true).result = .etimedout ∧
    (get_distance false 0 64 false 0 true).distanceCm = none ∧
    (get_distance false 0 64 false 0 true).pulse_ready' = false :=
  c3_timeout false 0 64 0 true (le_refl 0)

/-- C4: on a rising edge (echo line high) the handler records the current
monotonic timestamp as `start_time` and performs no other action — no field
change and no wake-up; on a falling edge it records `end_time`, computes
`duration_ns = end_time − start_time`, sets `pulse_ready` and wakes the
blocked waiter. -/
theorem c4_echo_isr (s : PulseState) (now : Int) :
    echo_isr s true now = ({ s with start_time := now }, false) ∧
    echo_isr s false now =
      ({ s with end_time := now, duration_ns := now - s.start_time, pulse_ready := true }, true) :=
  ⟨rfl, rfl⟩

/-- C5 counterexample: in the concrete measurement run with duration
11,600,000 ns, the clearing of `pulse_ready` does not precede driving the
trigger line high — the code pulses the trigger first (lines 46–48) and
clears the flag only afterwards (line 55). -/
theorem c5_reset_before_trigger_counterexample :
    ¬ ((get_distance false 0 64 true 11600000 true).trace.indexOf
          Action.resetReady <
        (get_distance false 0 64 true 11600000 true).trace.indexOf
          Action.triggerHigh) := by
  decide

/-- C5 amended: in every execution of the measurement sequence the reset of
`pulse_ready` happens after the trigger pulse (after the trigger line was
driven high) and before the blocking wait — not before the trigger pulse as
the specification orders the steps. -/
theorem c5_reset_after_trigger (ready0 : Bool) (off : Int) (len : Nat)
    (waitReady : Bool) (dur : Int) (copyOk : Bool) (hoff : off ≤ 0) :
    (get_distance ready0 off len waitReady dur copyOk).trace.indexOf
        Action.triggerHigh <
      (get_distance ready0 off len waitReady dur copyOk).trace.indexOf
        Action.resetReady ∧
    (get_distance ready0 off len waitReady dur copyOk).trace.indexOf
        Action.resetReady <
      (get_distance ready0 off len waitReady dur copyOk).trace.indexOf
        Action.waitEvent := by
  rw [get_distance_trace_of_nonpos ready0 off len waitReady dur copyOk
        (not_lt.mpr hoff)]
  exact ⟨by decide, by decide⟩

/-- Witness for C5 (amended) at offset 0. -/
theorem c5_reset_after_trigger_witness :
    (get_distance false 0 64 false 0 true).trace.indexOf Action.triggerHigh <
      (get_distance false 0 64 false 0 true).trace.indexOf Action.resetReady ∧
    (get_distance false 0 64 false 0 true).trace.indexOf Action.resetReady <
      (get_distance false 0 64 false 0 true).trace.indexOf Action.waitEvent :=
  c5_reset_after_trigger false 0 64 false 0 true (le_refl 0)

/-- C6: a read whose file offset is strictly positive returns zero bytes
(end-of-stream) without driving the trigger line or performing any
measurement: no hardware action happens and no distance is computed. -/
theorem c6_second_read_eof (ready0 : Bool) (off : Int) (len : Nat)
    (waitReady : Bool) (dur : Int) (copyOk : Bool) (hoff : off > 0) :
    (get_distance ready0 off len waitReady dur copyOk).result = .eof ∧
    (get_distance ready0 off len waitReady dur copyOk).trace = [] ∧
    (get_distance ready0 off len waitReady dur copyOk).distanceCm = none := by
  rw [get_distance_eof_eq ready0 off len waitReady dur copyOk hoff]
  exact ⟨rfl, rfl, rfl⟩

/-- Witness for C6 at offset 7. -/
theorem c6_second_read_eof_witness :
    (get_distance false 7 64 true 11600000 true).result = .eof ∧
    (get_distance false 7 64 true 11600000 true).trace = [] ∧
    (get_distance false 7 64 true 11600000 true).distanceCm = none :=
  c6_second_read_eof false 7 64 true 11600000 true (by decide)

/-- C9: the end-of-stream return also resets the file offset back to zero,
so the read immediately following it on the same open file starts a fresh
measurement — its first action drives the trigger high — rather than
reporting end-of-stream again. -/
theorem c9_eof_resets_offset (ready0 : Bool) (off : Int) (len : Nat)
    (waitReady : Bool) (dur : Int) (copyOk : Bool) (hoff : off > 0) :
    (get_distance ready0 off len waitReady dur copyOk).off' = 0 ∧
    ∀ r2 len2 w2 d2 c2,
      (get_distance r2 (get_distance ready0 off len waitReady dur copyOk).off'
          len2 w2 d2 c2).trace.head? = some Action.triggerHigh ∧
      (get_distance r2 (get_distance ready0 off len waitReady dur copyOk).off'
          len2 w2 d2 c2).result ≠ .eof := by
  have h0 : (get_distance ready0 off len waitReady dur copyOk).off' = 0 := by
    rw [get_distance_eof_eq ready0 off len waitReady dur copyOk hoff]
  refine ⟨h0, fun r2 len2 w2 d2 c2 => ?_⟩
  rw [h0]
  have hoff0 : ¬ (0 : Int) > 0 := by decide
  constructor
  · rw [get_distance_trace_of_nonpos r2 0 len2 w2 d2 c2 hoff0]
    rfl
  · exact get_distance_ne_eof r2 0 len2 w2 d2 c2 hoff0

/-- Witness for C9 at offset 7, instantiating the follow-up read. -/
theorem c9_eof_resets_offset_witness :
    (get_distance false 7 64 true 11600000 true).off' = 0 ∧
    (get_distance false (get_distance false 7 64 true 11600000 true).off'
        64 false 0 true).trace.head? = some Action.triggerHigh :=
  ⟨(c9_eof_resets_offset false 7 64 true 11600000 true (by decide)).1,
   ((c9_eof_resets_offset false 7 64 true 11600000 true (by decide)).2
      false 64 false 0 true).1⟩

/-- C8: a read at offset zero that fails with Timeout, RangeError or
CopyFault leaves the file offset at zero, so the next read on the same open
file performs a fresh full measurement — its first action drives the
trigger high — rather than returning end-of-stream. -/
theorem c8_errors_leave_offset (ready0 : Bool) (len : Nat) (waitReady : Bool)
    (dur : Int) (copyOk : Bool)
    (herr : (get_distance ready0 0 len waitReady dur copyOk).result
                = .etimedout ∨
            (∃ v, (get_distance ready0 0 len waitReady dur copyOk).result
                = .erange v) ∨
            (get_distance ready0 0 len waitReady dur copyOk).result
                = .efault) :
    (get_distance ready0 0 len waitReady dur copyOk).off' = 0 ∧
    ∀ r2 len2 w2 d2 c2,
      (get_distance r2 (get_distance ready0 0 len waitReady dur copyOk).off'
          len2 w2 d2 c2).trace.head? = some Action.triggerHigh ∧
      (get_distance r2 (get_distance ready0 0 len waitReady dur copyOk).off'
          len2 w2 d2 c2).result ≠ .eof := by
  have hoff0 : ¬ (0 : Int) > 0 := by decide
  have h0 : (get_distance ready0 0 len waitReady dur copyOk).off' = 0 := by
    cases waitReady
    · rw [get_distance_timeout_eq ready0 0 len dur copyOk hoff0]
    · by_cases hr : div64_s64 dur 58000 < 0 ∨ div64_s64 dur 58000 > 400
      · rw [get_distance_erange_eq ready0 0 len dur copyOk hoff0 hr]
      · cases copyOk
        · rw [get_distance_efault_eq ready0 0 len dur hoff0 hr]
        · rw [get_distance_ok_eq ready0 0 len dur hoff0 hr] at herr
          rcases herr with h | ⟨v, h⟩ | h
          · exact absurd h (fun h => ReadResult.noConfusion h)
          · exact absurd h (fun h => ReadResult.noConfusion h)
          · exact absurd h (fun h => ReadResult.noConfusion h)
  refine ⟨h0, fun r2 len2 w2 d2 c2 => ?_⟩
  rw [h0]
  constructor
  · rw [get_distance_trace_of_nonpos r2 0 len2 w2 d2 c2 hoff0]
    rfl
  · exact get_distance_ne_eof r2 0 len2 w2 d2 c2 hoff0

/-- Witness for C8 on a timed-out read, instantiating the follow-up read. -/
theorem c8_errors_leave_offset_witness :
    (get_distance false 0 64 false 0 true).off' = 0 ∧
    (get_distance false (get_distance false 0 64 false 0 true).off'
        64 false 0 true).trace.head? = some Action.triggerHigh :=
  ⟨(c8_errors_leave_offset false 64 false 0 true (Or.inl (by decide))).1,
   ((c8_errors_leave_offset false 64 false 0 true (Or.inl (by decide))).2
      false 64 false 0 true).1⟩

/-- C7 counterexample: at offset 0, duration 11,600,000 ns and `len = 64`
the formatted token is `"200cm\n"`, 6 bytes long, yet the call copies and
returns 7 bytes — the NUL terminator produced by `snprintf` is copied and
counted as well, so the returned count is not the token's byte length. -/
theorem c7_count_is_token_length_counterexample :
    (get_distance false 0 64 true 11600000 true).result
        = .ok ((format_distance 200).data ++ [Char.ofNat 0]) 7 ∧
    (format_distance 200).length = 6 ∧ (7 : Nat) ≠ 6 := by
  decide

/-- C7 amended: on a successful measurement the bytes delivered to the
caller are the decimal digits of the distance followed by `"cm"`, a
newline, and a trailing NUL byte; when `len` is large enough the returned
byte count is the token length plus one (the NUL byte is copied and
counted).  Duration 11,600,000 ns yields the token `"200cm\n"`. -/
theorem c7_success_format (ready0 : Bool) (off : Int) (len : Nat) (dur : Int)
    (hoff : off ≤ 0)
    (hr : 0 ≤ div64_s64 dur 58000 ∧ div64_s64 dur 58000 ≤ 400)
    (hlen : (format_distance (div64_s64 dur 58000)).length + 1 ≤ len) :
    (get_distance ready0 off len true dur true).result
      = .ok ((format_distance (div64_s64 dur 58000)).data ++ [Char.ofNat 0])
          ((format_distance (div64_s64 dur 58000)).length + 1) ∧
    format_distance (div64_s64 11600000 58000) = "200cm\n" := by
  have hr' : ¬ (div64_s64 dur 58000 < 0 ∨ div64_s64 dur 58000 > 400) := by
    rintro (h3 | h3)
    · exact absurd hr.1 (not_le.mpr h3)
    · exact absurd h3 (not_lt.mpr hr.2)
  constructor
  · rw [get_distance_ok_eq ready0 off len dur (not_lt.mpr hoff) hr']
    simp only [Nat.min_eq_right hlen]
    show ReadResult.ok _ _ = _
    congr 1
    exact List.take_of_length_le (by
      rw [List.length_append, List.length_singleton]
      exact le_refl _)
  · decide

/-- Witness for C7 (amended) at duration 11,600,000 ns and `len = 64`. -/
theorem c7_success_format_witness :
    (get_distance false 0 64 true 11600000 true).result
      = .ok ((format_distance (div64_s64 11600000 58000)).data ++ [Char.ofNat 0])
          ((format_distance (div64_s64 11600000 58000)).length + 1) :=
  (c7_success_format false 0 64 11600000 (le_refl 0) (by decide) (by decide)).1

/-- C10: on a successful measurement the number of bytes copied and
returned is `min(len, formatted_length + 1)` — when `len` is large enough
the NUL terminator is copied and counted, and when `len` is smaller the
token is silently truncated to exactly `len` bytes — and the file offset is
advanced by exactly that count. -/
theorem c10_copy_count_min (ready0 : Bool) (off : Int) (len : Nat) (dur : Int)
    (hoff : off ≤ 0)
    (hr : 0 ≤ div64_s64 dur 58000 ∧ div64_s64 dur 58000 ≤ 400) :
    (get_distance ready0 off len true dur true).result
      = .ok (((format_distance (div64_s64 dur 58000)).data
            ++ [Char.ofNat 0]).take
            (min len ((format_distance (div64_s64 dur 58000)).length + 1)))
          (min len ((format_distance (div64_s64 dur 58000)).length + 1)) ∧
    (get_distance ready0 off len true dur true).off'
      = off + min len ((format_distance (div64_s64 dur 58000)).length + 1) := by
  have hr' : ¬ (div64_s64 dur 58000 < 0 ∨ div64_s64 dur 58000 > 400) := by
    rintro (h3 | h3)
    · exact absurd hr.1 (not_le.mpr h3)
    · exact absurd h3 (not_lt.mpr hr.2)
  rw [get_distance_ok_eq ready0 off len dur (not_lt.mpr hoff) hr']
  exact ⟨rfl, rfl⟩

/-- Witness for C10 with `len = 3` (truncating case) at duration
11,600,000 ns. -/
theorem c10_copy_count_min_witness :
    (get_distance false 0 3 true 11600000 true).result
      = .ok (((format_distance (div64_s64 11600000 58000)).data
            ++ [Char.ofNat 0]).take
            (min 3 ((format_distance (div64_s64 11600000 58000)).length + 1)))
          (min 3 ((format_distance (div64_s64 11600000 58000)).length + 1)) ∧
    (get_distance false 0 3 true 11600000 true).off'
      = 0 + min 3 ((format_distance (div64_s64 11600000 58000)).length + 1) :=
  c10_copy_count_min false 0 3 11600000 (le_refl 0) (by decide)

end HCSR04
